import Mathlib

/-!
A verification development for the vector-record orchestration layer of the
"drab" service (src/drab): identity mapping (custom id → native UUID key),
vector storage with dimension validation, two-path retrieval and deletion,
and threshold/limit-bounded similarity search with self-exclusion.

The embedding is shallow: each TypeScript function of
`src/drab/src/services/vector.service.ts`, `embedding.service.ts` and the
query route handlers is translated into an executable Lean definition.
External collaborators are modelled by their contracts:

* Node's `crypto.createHash('sha256').update(id).digest('hex')` is an opaque
  deterministic function producing exactly 64 hex nibbles; it is passed in as
  a parameter `sha : String → Fin 64 → Fin 16` (nibble `k` of the digest is
  the hex character `hash.substring(k, k+1)`).
* `uuid.v4()` is a fresh random key supplied by the environment, passed in as
  an explicit `freshKey` argument.
* The Qdrant client is modelled as an explicit collection state
  (a list of points keyed by id) threaded through each operation; `upsert`
  is insert-or-replace by key, `retrieve` is lookup by key, `scroll` with an
  `original_id` match filter is a payload-filtered search, and `search`
  ranks points by a similarity score (cosine, in the deployed system; the
  scorer is a parameter so that theorems hold for any ranking metric).
* Vector components are modelled as rationals.
-/

namespace Drab

set_option maxRecDepth 8000

/-- Characters accepted by the character class `[0-9a-f]` under the `/i`
(case-insensitive) flag of the UUID regex in `convertToValidId`. -/
def isHexDigit (c : Char) : Bool :=
  (('0' ≤ c && c ≤ '9') || ('a' ≤ c && c ≤ 'f') || ('A' ≤ c && c ≤ 'F'))

/-- The test
`/^[0-9a-f]{8}-[0-9a-f]{4}-[1-5][0-9a-f]{3}-[89ab][0-9a-f]{3}-[0-9a-f]{12}$/i`
from `VectorService.convertToValidId` (vector.service.ts:82), transcribed
positionally: 8 hex chars, hyphen, 4 hex, hyphen, a version char in `[1-5]`
then 3 hex, hyphen, a variant char in `[89ab]` (case-insensitive) then
3 hex, hyphen, 12 hex.  (The trailing `[0-9a-f]{12}$` group is split into
the helper `uuidTail12`, below; `isValidUuid` holds the rest.) -/
def uuidTail12 (l : List Char) : Bool :=
  match l with
  | [f0, f1, f2, f3, f4, f5, f6, f7, f8, f9, f10, f11] =>
      [f0, f1, f2, f3, f4, f5, f6, f7, f8, f9, f10, f11].all isHexDigit
  | _ => false

def isValidUuid (s : String) : Bool :=
  match s.toList with
  | a0 :: a1 :: a2 :: a3 :: a4 :: a5 :: a6 :: a7 :: '-' ::
    b0 :: b1 :: b2 :: b3 :: '-' ::
    v :: c0 :: c1 :: c2 :: '-' ::
    w :: e0 :: e1 :: e2 :: '-' :: rest =>
      [a0, a1, a2, a3, a4, a5, a6, a7,
       b0, b1, b2, b3, c0, c1, c2, e0, e1, e2].all isHexDigit
      && ('1' ≤ v && v ≤ '5')
      && (w == '8' || w == '9' || w == 'a' || w == 'b' || w == 'A' || w == 'B')
      && uuidTail12 rest
  | _ => false

/-- A single lowercase hex character for a nibble, as in a Node
`digest('hex')` string (`Nat.digitChar` yields `'0'`–`'9'`, `'a'`–`'f'`). -/
def hexChar (n : Fin 16) : Char := Nat.digitChar n.val

/-- `(parseInt(hash.substring(16, 17), 16) & 0x3) | 0x8` from
vector.service.ts:96.  The value is at most `0xb`, so the trailing `% 16`
never changes it; it only provides the `Fin 16` bound. -/
def variantNibble (n : Fin 16) : Fin 16 :=
  ⟨((n.val &&& 3) ||| 8) % 16, Nat.mod_lt _ (by norm_num)⟩

/-- The character list of the UUID assembled at vector.service.ts:92-98 from
a 64-nibble digest `d`:
`hash[0:8] ++ "-" ++ hash[8:12] ++ "-" ++ "4" ++ hash[13:16] ++ "-" ++
variant(hash[16]) ++ hash[17:20] ++ "-" ++ hash[20:32]`. -/
def uuidChars (d : Fin 64 → Fin 16) : List Char :=
  [hexChar (d 0), hexChar (d 1), hexChar (d 2), hexChar (d 3),
   hexChar (d 4), hexChar (d 5), hexChar (d 6), hexChar (d 7), '-',
   hexChar (d 8), hexChar (d 9), hexChar (d 10), hexChar (d 11), '-',
   '4', hexChar (d 13), hexChar (d 14), hexChar (d 15), '-',
   hexChar (variantNibble (d 16)), hexChar (d 17), hexChar (d 18), hexChar (d 19), '-',
   hexChar (d 20), hexChar (d 21), hexChar (d 22), hexChar (d 23),
   hexChar (d 24), hexChar (d 25), hexChar (d 26), hexChar (d 27),
   hexChar (d 28), hexChar (d 29), hexChar (d 30), hexChar (d 31)]

/-- The deterministic UUID built from a SHA-256 hex digest
(vector.service.ts:89-100). -/
def formatUuid (d : Fin 64 → Fin 16) : String := String.mk (uuidChars d)

/-- `VectorService.convertToValidId` (vector.service.ts:76-101) for a
present, non-empty custom id: pass a native-format id through unchanged,
otherwise hash it and reformat the digest as a version-4 UUID.  `sha`
models `crypto.createHash('sha256')...digest('hex')`. -/
def convertToValidId (sha : String → Fin 64 → Fin 16) (customId : String) : String :=
  if isValidUuid customId then customId else formatUuid (sha customId)

/-- The full `convertToValidId` entry point including the
`if (!customId) return uuidv4();` guard: a missing id — and, by JavaScript
falsiness, the empty string — yields the fresh random UUID `freshKey`
supplied by the environment. -/
def convertToValidIdOpt (sha : String → Fin 64 → Fin 16) (freshKey : String)
    (customId : Option String) : String :=
  match customId with
  | none => freshKey
  | some s => if s = "" then freshKey else convertToValidId sha s

/-! ## Data model

`VectorRecord` and `QueryResult` translate the interfaces of
`src/drab/src/types` (part of `src/unnamed`).  The service accesses
`record.id` with optional semantics (`convertToValidId(record.id?)`, and the
routes pass `id || undefined`), so `id` is modelled as `Option String`;
likewise `metadata`.  Metadata values are opaque and passed through
untouched, so any concrete model of them works; string pairs are used. -/

abbrev Metadata := List (String × String)

/-- Error taxonomy of the service layer.  `dimensionMismatch` carries the
expected and actual lengths (and, in the batch path, the record id named in
the message); `validation` carries the thrown message verbatim; `notFound`
models the 404 path of the `/query/similar/:id` route. -/
inductive VError where
  | dimensionMismatch (recId : Option String) (expected actual : Nat)
  | validation (msg : String)
  | notFound (id : String)
  deriving Repr, DecidableEq

/-- The payload stored alongside a vector in a Qdrant point
(vector.service.ts:125-130).  `original_id` is absent (`none`) when the
JavaScript value was `undefined` (JSON drops undefined fields). -/
structure QPayload where
  original_id : Option String
  text : String
  metadata : Metadata
  created_at : String
  deriving Repr, DecidableEq

/-- A Qdrant point: native key, vector, payload. -/
structure QPoint where
  id : String
  vector : List ℚ
  payload : QPayload
  deriving Repr, DecidableEq

/-- The Qdrant collection, modelled as the list of its points (keys are
unique because upsert replaces by key). -/
abbrev QdrantState := List QPoint

/-- `VectorRecord` from `src/drab/src/types`. -/
structure VectorRecord where
  id : Option String
  text : String
  embedding : List ℚ
  metadata : Option Metadata
  deriving Repr, DecidableEq

/-- `QueryResult` from `src/drab/src/types`. -/
structure QueryResult where
  id : String
  text : String
  score : ℚ
  metadata : Metadata
  deriving Repr, DecidableEq

/-- `this.vectorSize = 384` (vector.service.ts:10): the fixed dimension of
the `drab_embeddings` collection. -/
def vectorSize : Nat := 384

/-- JavaScript `x || y` on an optional string: `undefined` and `""` are
falsy. -/
def jsOrStr : Option String → String → String
  | none, dflt => dflt
  | some s, dflt => if s = "" then dflt else s

/-! ## Vector Store (Qdrant) collaborator model

The Qdrant client is external to the repository; it is modelled by its
REST contract (spec §6): a fixed-dimension collection supporting upsert
(insert-or-replace by key), retrieve by key, payload-filtered scroll,
delete by key, and ranked nearest-neighbour search. -/

/-- `client.upsert` of a single point: replace any point with the same key. -/
def upsertPoint (p : QPoint) (st : QdrantState) : QdrantState :=
  p :: st.filter (fun q => q.id != p.id)

/-- `client.retrieve` with a single id. -/
def qdrantRetrieve (k : String) (st : QdrantState) : Option QPoint :=
  st.find? (fun p => p.id == k)

/-- `client.scroll` with filter `must [{key: original_id, match {value}}]`
and `limit: 1`: the first point whose payload carries that original id.
A point without an `original_id` field never matches. -/
def scrollByOriginalId (origId : String) (st : QdrantState) : Option QPoint :=
  st.find? (fun p => p.payload.original_id == some origId)

/-- `client.delete` with a single point id: removes the point when present.
Per the Qdrant REST contract the call is acknowledged whether or not the id
exists — deleting a nonexistent point id is a successful no-op, not an
error, and the acknowledgement carries no per-point found/missing
information. -/
def qdrantDeleteKey (k : String) (st : QdrantState) : QdrantState :=
  st.filter (fun p => p.id != k)

/-- `client.search`: rank all points by descending similarity score against
the query vector, keep those meeting `score_threshold`, return at most
`limit`.  The scoring metric (cosine in the deployed collection) is the
parameter `score`. -/
def insertByScoreDesc (score : List ℚ → List ℚ → ℚ) (v : List ℚ) (p : QPoint) :
    List QPoint → List QPoint
  | [] => [p]
  | q :: qs =>
    if score v q.vector ≤ score v p.vector then p :: q :: qs
    else q :: insertByScoreDesc score v p qs

def sortByScoreDesc (score : List ℚ → List ℚ → ℚ) (v : List ℚ) :
    List QPoint → List QPoint
  | [] => []
  | p :: ps => insertByScoreDesc score v p (sortByScoreDesc score v ps)

def qdrantSearch (score : List ℚ → List ℚ → ℚ) (st : QdrantState) (v : List ℚ)
    (limit : Nat) (threshold : ℚ) : List QPoint :=
  ((sortByScoreDesc score v st).filter (fun p => decide (threshold ≤ score v p.vector))).take limit

/-! ## VectorService operations -/

/-- `VectorService.storeVector` (vector.service.ts:108-160).  Derives the
Qdrant key from the record id, validates the embedding dimension before the
upsert is attempted, writes the point (payload carries the original id,
text, metadata and timestamp) waiting for acknowledgement, and returns
`originalId || qdrantId`.  `freshKey` models the `uuidv4()` drawn when the
id is absent; `now` models `new Date().toISOString()`. -/
def storeVector (sha : String → Fin 64 → Fin 16) (freshKey now : String)
    (record : VectorRecord) (st : QdrantState) : Except VError (String × QdrantState) :=
  let originalId := record.id
  let qdrantId := convertToValidIdOpt sha freshKey originalId
  if record.embedding.length ≠ vectorSize then
    .error (.dimensionMismatch none vectorSize record.embedding.length)
  else
    let point : QPoint :=
      { id := qdrantId
        vector := record.embedding
        payload :=
          { original_id := originalId
            text := record.text
            metadata := record.metadata.getD []
            created_at := now } }
    .ok (jsOrStr originalId qdrantId, upsertPoint point st)

/-- The collection state observed after a `storeVector` call returns or
throws: on an error no upsert was issued, so the state is unchanged. -/
def stateAfterStoreVector (sha : String → Fin 64 → Fin 16) (freshKey now : String)
    (record : VectorRecord) (st : QdrantState) : QdrantState :=
  match storeVector sha freshKey now record st with
  | .ok (_, st') => st'
  | .error _ => st

/-- The body of the `records.map` callback in `VectorService.storeVectors`
(vector.service.ts:171-189): `key` is `record.id || uuidv4()`, used directly
as the point id; a wrong-length embedding throws a dimension mismatch naming
that id; the payload holds text, metadata and timestamp — and no
`original_id` field. -/
def batchPoint (key now : String) (record : VectorRecord) : Except VError QPoint :=
  let id := jsOrStr record.id key
  if record.embedding.length ≠ vectorSize then
    .error (.dimensionMismatch (some id) vectorSize record.embedding.length)
  else
    .ok { id := id
          vector := record.embedding
          payload :=
            { original_id := none
              text := record.text
              metadata := record.metadata.getD []
              created_at := now } }

/-- The `records.map(...)` of `storeVectors`, evaluated left to right; the
first throw aborts the whole map.  `fresh i` models the `uuidv4()` drawn for
the `i`-th record when its id is falsy. -/
def mkBatchPoints (fresh : Nat → String) (now : String) :
    Nat → List VectorRecord → Except VError (List QPoint)
  | _, [] => .ok []
  | i, r :: rs =>
    match batchPoint (fresh i) now r with
    | .error e => .error e
    | .ok p =>
      match mkBatchPoints fresh now (i + 1) rs with
      | .error e => .error e
      | .ok ps => .ok (p :: ps)

/-- `VectorService.storeVectors` (vector.service.ts:167-207): build all
points (throwing on the first dimension mismatch, before any write), then
upsert them in one batched call and return their ids. -/
def storeVectors (fresh : Nat → String) (now : String) (records : List VectorRecord)
    (st : QdrantState) : Except VError (List String × QdrantState) :=
  match mkBatchPoints fresh now 0 records with
  | .error e => .error e
  | .ok points => .ok (points.map (·.id), points.foldl (fun s p => upsertPoint p s) st)

/-- The collection state observed after a `storeVectors` call returns or
throws. -/
def stateAfterStoreVectors (fresh : Nat → String) (now : String)
    (records : List VectorRecord) (st : QdrantState) : QdrantState :=
  match storeVectors fresh now records st with
  | .ok (_, st') => st'
  | .error _ => st

/-- `VectorService.searchSimilar` (vector.service.ts:216-254): validate the
query dimension, run the ranked search with payloads, and map each hit to a
`QueryResult` whose `id` is `payload.original_id || point.id`. -/
def searchSimilar (score : List ℚ → List ℚ → ℚ) (st : QdrantState)
    (queryVector : List ℚ) (limit : Nat) (threshold : ℚ) :
    Except VError (List QueryResult) :=
  if queryVector.length ≠ vectorSize then
    .error (.dimensionMismatch none vectorSize queryVector.length)
  else
    .ok ((qdrantSearch score st queryVector limit threshold).map (fun p =>
      { id := jsOrStr p.payload.original_id p.id
        text := p.payload.text
        score := score queryVector p.vector
        metadata := p.payload.metadata }))

/-- `VectorService.getVector` (vector.service.ts:261-324): try direct
retrieval by the derived key; if nothing is found and the derived key
differs from the given id, fall back to a payload scroll on `original_id`;
reconstruct the record from the point found by either path. -/
def getVector (sha : String → Fin 64 → Fin 16) (freshKey : String) (id : String)
    (st : QdrantState) : Option VectorRecord :=
  let qdrantId := convertToValidIdOpt sha freshKey (some id)
  let direct := qdrantRetrieve qdrantId st
  let found :=
    match direct with
    | some p => some p
    | none => if qdrantId ≠ id then scrollByOriginalId id st else none
  match found with
  | none => none
  | some point =>
    some { id := some (jsOrStr point.payload.original_id point.id)
           text := point.payload.text
           embedding := point.vector
           metadata := some point.payload.metadata }

/-- `VectorService.deleteVector` (vector.service.ts:331-385).  The code
calls `client.delete` with the derived key inside a try/catch and returns
`true` when the call does not throw.  Under the Qdrant REST contract the
delete of a point id is acknowledged whether or not such a point exists, so
the call does not throw on a miss: the catch branch (scroll by
`original_id`, delete the discovered key, else return `false`) is
unreachable, and the function returns `true` unconditionally after removing
whatever point held the derived key. -/
def deleteVector (sha : String → Fin 64 → Fin 16) (freshKey : String) (id : String)
    (st : QdrantState) : Bool × QdrantState :=
  let qdrantId := convertToValidIdOpt sha freshKey (some id)
  (true, qdrantDeleteKey qdrantId st)

/-! ## Route handlers (query.routes.ts) -/

/-- The core of the `POST /query` handler (query.routes.ts:28-32), after the
query text has been embedded: `searchSimilar(v, Math.min(limit, 100),
Math.max(threshold, 0.0))`. -/
def querySearchClamped (score : List ℚ → List ℚ → ℚ) (st : QdrantState)
    (queryVector : List ℚ) (limit : Nat) (threshold : ℚ) :
    Except VError (List QueryResult) :=
  searchSimilar score st queryVector (min limit 100) (max threshold 0)

/-- The `POST /query/similar/:id` handler (query.routes.ts:87-134): resolve
the record via `getVector` (404 when absent), search with the record's own
embedding under the same clamping, then filter out every result whose `id`
equals the `:id` path parameter. -/
def similarById (sha : String → Fin 64 → Fin 16) (freshKey : String)
    (score : List ℚ → List ℚ → ℚ) (st : QdrantState) (existingId : String)
    (limit : Nat) (threshold : ℚ) : Except VError (List QueryResult) :=
  match getVector sha freshKey existingId st with
  | none => .error (.notFound existingId)
  | some record =>
    match searchSimilar score st record.embedding (min limit 100) (max threshold 0) with
    | .error e => .error e
    | .ok results => .ok (results.filter (fun r => r.id != existingId))

/-! ## EmbeddingService -/

/-- `EmbeddingService.generateEmbeddings` (embedding.service.ts:113-125):
reject an empty input list before any embedding is generated, else embed
each text in order, aborting on the first failure.  `gen` stands for
`this.generateEmbedding`. -/
def generateEmbeddings (gen : String → Except VError (List ℚ))
    (texts : List String) : Except VError (List (List ℚ)) :=
  if texts.length = 0 then .error (.validation "Input texts array cannot be empty")
  else texts.mapM gen

/-! ## Concrete fixtures used by witnesses and counterexamples -/

/-- A stand-in digest function for witnesses: every nibble 0.  Witness
theorems apply universally-quantified results to it; nothing depends on its
values beyond being a function `String → Fin 64 → Fin 16`. -/
def shaZero : String → Fin 64 → Fin 16 := fun _ _ => 0

/-- A key already in the native format (version 4, variant 8). -/
def uuidEx : String := "12345678-1234-4123-8123-123456789abc"

/-- A fresh `uuidv4()` value supplied by the environment. -/
def freshEx : String := "00000000-0000-4000-8000-000000000000"

/-- A timestamp value for `new Date().toISOString()`. -/
def nowEx : String := "2026-01-01T00:00:00.000Z"

/-- A 384-dimensional unit vector: 1 followed by 383 zeros. -/
def e0vec : List ℚ := 1 :: List.replicate 383 0

/-- Dot product, the concrete scorer used on fixtures (equal to cosine
similarity on unit vectors, which is what the embedding pipeline produces:
`normalize: true` in embedding.service.ts:79). -/
def dotScore (a b : List ℚ) : ℚ := ((a.zip b).map (fun q => q.1 * q.2)).sum

/-- A well-formed record with a custom (non-UUID) id. -/
def recEx : VectorRecord :=
  { id := some "doc_001"
    text := "t"
    embedding := e0vec
    metadata := some [("k", "v")] }

/-- A record whose embedding has the wrong length (2 instead of 384). -/
def recBad : VectorRecord :=
  { id := some "doc_bad"
    text := "b"
    embedding := [1, 2]
    metadata := none }

/-- The native storage key of the fixture point `ptEx`. -/
def keyEx : String := "11111111-1111-4111-8111-111111111111"

/-- A stored point addressed by native key `keyEx` but carrying the
original id `doc_001` in its payload, as the single-record store writes it. -/
def ptEx : QPoint :=
  { id := "11111111-1111-4111-8111-111111111111"
    vector := e0vec
    payload :=
      { original_id := some "doc_001"
        text := "t"
        metadata := []
        created_at := "2026-01-01T00:00:00.000Z" } }

/-! ## Helper lemmas -/

/-- Every hex character is accepted by the regex's hex class. -/
theorem isHexDigit_hexChar : ∀ n : Fin 16, isHexDigit (hexChar n) = true := by
  decide

/-- The variant character is one of `8 9 a b`. -/
theorem variantChar_ok : ∀ n : Fin 16,
    (hexChar (variantNibble n) == '8' || hexChar (variantNibble n) == '9' ||
     hexChar (variantNibble n) == 'a' || hexChar (variantNibble n) == 'b' ||
     hexChar (variantNibble n) == 'A' || hexChar (variantNibble n) == 'B') = true := by
  decide

/-- The UUID built from any 64-nibble digest matches the native-key regex —
the version slot holds `'4'` and the variant slot holds one of `8 9 a b`. -/
theorem isValidUuid_formatUuid (d : Fin 64 → Fin 16) :
    isValidUuid (formatUuid d) = true := by
  show isValidUuid (String.mk (uuidChars d)) = true
  simp only [isValidUuid, uuidChars, uuidTail12, String.toList]
  simp [List.all, isHexDigit_hexChar, variantChar_ok (d 16)]

/-- Retrieval by a point's own key immediately after upserting it finds it. -/
theorem retrieve_upsert_self (p : QPoint) (st : QdrantState) :
    qdrantRetrieve p.id (upsertPoint p st) = some p := by
  simp [qdrantRetrieve, upsertPoint, List.find?]

/-! ## Claims -/

/-- C2: `convertToValidId` (the id → storage-key derivation) is a pure
function of its input — in this embedding it is a Lean function of the id
and of the (deterministic) SHA-256 digest function, with no state and no
I/O, so two calls on the same id give the same key — and any id already in
the native UUID format is returned unchanged. -/
theorem c2_deriveKey_deterministic_passthrough
    (sha : String → Fin 64 → Fin 16) (id : String) :
    convertToValidId sha id = convertToValidId sha id ∧
    (isValidUuid id = true → convertToValidId sha id = id) := by
  refine ⟨rfl, fun h => ?_⟩
  simp [convertToValidId, h]

/-- Witness for C2 at a concrete native-format id. -/
theorem c2_witness :
    isValidUuid uuidEx = true ∧ convertToValidId shaZero uuidEx = uuidEx := by
  have h : isValidUuid uuidEx = true := by decide
  exact ⟨h, (c2_deriveKey_deterministic_passthrough shaZero uuidEx).2 h⟩

/-- C8: key derivation is idempotent — the UUID produced for a non-native
id (version nibble 4, variant nibble in 8–b) itself matches the native
format, so a second derivation passes it through unchanged. -/
theorem c8_deriveKey_idempotent (sha : String → Fin 64 → Fin 16) (id : String) :
    convertToValidId sha (convertToValidId sha id) = convertToValidId sha id := by
  by_cases h : isValidUuid id = true
  · simp [convertToValidId, h]
  · simp [convertToValidId, h, isValidUuid_formatUuid]

/-- C10: `generateEmbeddings` on an empty list of texts fails with the
validation error `Input texts array cannot be empty` — for every possible
behaviour of the per-text generator, so no embedding is ever generated. -/
theorem c10_generateEmbeddings_rejects_empty
    (gen : String → Except VError (List ℚ)) :
    generateEmbeddings gen [] =
      .error (.validation "Input texts array cannot be empty") := rfl

/-- C6: out-of-range search parameters are silently clamped — a query with
`limit = 500` and `threshold = -1` runs exactly the search that
`limit = 100`, `threshold = 0` runs, for every scorer, state and query
vector. -/
theorem c6_search_clamping (score : List ℚ → List ℚ → ℚ) (st : QdrantState)
    (v : List ℚ) :
    querySearchClamped score st v 500 (-1) = querySearchClamped score st v 100 0 := by
  unfold querySearchClamped
  have h1 : min 500 100 = (100 : Nat) := by decide
  have h2 : max (-1 : ℚ) 0 = 0 := by norm_num
  have h3 : min 100 100 = (100 : Nat) := by decide
  have h4 : max (0 : ℚ) 0 = 0 := by norm_num
  rw [h1, h2, h3, h4]

/-- C1: `storeVector` fails with a dimension-mismatch error naming the
expected (384) and actual lengths whenever the embedding length is not 384,
and in that case no point is written (the collection state is unchanged);
it succeeds whenever the length is exactly 384. -/
theorem c1_store_dimension_guard (sha : String → Fin 64 → Fin 16)
    (freshKey now : String) (record : VectorRecord) (st : QdrantState) :
    (record.embedding.length ≠ vectorSize →
      storeVector sha freshKey now record st =
        .error (.dimensionMismatch none vectorSize record.embedding.length) ∧
      stateAfterStoreVector sha freshKey now record st = st) ∧
    (record.embedding.length = vectorSize →
      ∃ ret st', storeVector sha freshKey now record st = .ok (ret, st')) := by
  constructor
  · intro h
    constructor
    · simp [storeVector, h]
    · simp [stateAfterStoreVector, storeVector, h]
  · intro h
    refine ⟨jsOrStr record.id (convertToValidIdOpt sha freshKey record.id),
      upsertPoint
        { id := convertToValidIdOpt sha freshKey record.id
          vector := record.embedding
          payload :=
            { original_id := record.id
              text := record.text
              metadata := record.metadata.getD []
              created_at := now } } st, ?_⟩
    simp [storeVector, h]

/-- Witness for C1: a 2-dimensional embedding is rejected with the error
naming 384 and 2, leaving the store empty; a 384-dimensional one is
accepted. -/
theorem c1_witness :
    (storeVector shaZero freshEx nowEx recBad [] =
       .error (.dimensionMismatch none vectorSize 2) ∧
     stateAfterStoreVector shaZero freshEx nowEx recBad [] = []) ∧
    (∃ ret st', storeVector shaZero freshEx nowEx recEx [] = .ok (ret, st')) :=
  ⟨(c1_store_dimension_guard shaZero freshEx nowEx recBad []).1 (by decide),
   (c1_store_dimension_guard shaZero freshEx nowEx recEx []).2
     (by simp [recEx, e0vec, vectorSize])⟩

/-- Helper lemma: deriving a key from the value `storeVector` returns
(`originalId || qdrantId`) reproduces the key the point was stored under,
provided the environment's fresh UUID has the native format (which
`uuidv4()` guarantees). -/
theorem convert_of_returned_id (sha : String → Fin 64 → Fin 16)
    (freshKey fkG : String) (oid : Option String)
    (hfresh : isValidUuid freshKey = true) :
    convertToValidIdOpt sha fkG
        (some (jsOrStr oid (convertToValidIdOpt sha freshKey oid))) =
      convertToValidIdOpt sha freshKey oid := by
  have hne : freshKey ≠ "" := by
    intro he
    rw [he] at hfresh
    exact absurd hfresh (by decide)
  have hkey : convertToValidIdOpt sha fkG (some freshKey) = freshKey := by
    show (if freshKey = "" then fkG else convertToValidId sha freshKey) = freshKey
    rw [if_neg hne]
    show (if isValidUuid freshKey = true then freshKey else _) = freshKey
    rw [if_pos hfresh]
  match oid with
  | none => exact hkey
  | some s =>
    by_cases hs : s = ""
    · subst hs
      exact hkey
    · show convertToValidIdOpt sha fkG
        (some (jsOrStr (some s) (if s = "" then freshKey else convertToValidId sha s))) = _
      rw [if_neg hs]
      show convertToValidIdOpt sha fkG (some (if s = "" then _ else s)) = _
      rw [if_neg hs]
      show (if s = "" then fkG else convertToValidId sha s) = _
      rw [if_neg hs]
      show convertToValidId sha s = convertToValidIdOpt sha freshKey (some s)
      show convertToValidId sha s = if s = "" then freshKey else convertToValidId sha s
      rw [if_neg hs]

/-- Helper lemma: after upserting a point, `getVector` with any id that
derives to the point's key succeeds on the direct path and reconstructs the
record from the point's vector and payload. -/
theorem getVector_after_upsert (sha : String → Fin 64 → Fin 16) (fkG : String)
    (pt : QPoint) (st : QdrantState) (ret : String)
    (h : convertToValidIdOpt sha fkG (some ret) = pt.id) :
    getVector sha fkG ret (upsertPoint pt st) =
      some { id := some (jsOrStr pt.payload.original_id pt.id)
             text := pt.payload.text
             embedding := pt.vector
             metadata := some pt.payload.metadata } := by
  simp only [getVector, h, retrieve_upsert_self]

/-- C3: a successful store can always be read back.  For any record with a
384-length embedding, `storeVector` succeeds; its return value is the
supplied id when one was supplied (non-empty, per JavaScript falsiness,
matching the `id || undefined` coercion in the routes) and the generated
key otherwise; and `getVector` on the returned value finds the record
again, with the stored text, metadata and an embedding equal to the stored
vector.  `hfresh` states that the environment's `uuidv4()` value has the
native key format, which the uuid library guarantees. -/
theorem c3_store_get_roundtrip (sha : String → Fin 64 → Fin 16)
    (freshKey fkG now : String) (record : VectorRecord) (st : QdrantState)
    (hlen : record.embedding.length = vectorSize)
    (hfresh : isValidUuid freshKey = true) :
    ∃ ret st',
      storeVector sha freshKey now record st = .ok (ret, st') ∧
      (∀ i, record.id = some i → i ≠ "" → ret = i) ∧
      ((record.id = none ∨ record.id = some "") → ret = freshKey) ∧
      ∃ rec',
        getVector sha fkG ret st' = some rec' ∧
        rec'.text = record.text ∧
        rec'.embedding = record.embedding ∧
        rec'.metadata = some (record.metadata.getD []) := by
  refine ⟨jsOrStr record.id (convertToValidIdOpt sha freshKey record.id),
    upsertPoint
      { id := convertToValidIdOpt sha freshKey record.id
        vector := record.embedding
        payload :=
          { original_id := record.id
            text := record.text
            metadata := record.metadata.getD []
            created_at := now } } st, ?_, ?_, ?_, ?_⟩
  · simp [storeVector, hlen]
  · intro i hi hne
    simp [jsOrStr, hi, hne]
  · rintro (hi | hi) <;> simp [jsOrStr, convertToValidIdOpt, hi]
  · refine ⟨{ id := some (jsOrStr record.id (convertToValidIdOpt sha freshKey record.id))
              text := record.text
              embedding := record.embedding
              metadata := some (record.metadata.getD []) }, ?_, rfl, rfl, rfl⟩
    exact getVector_after_upsert sha fkG
      { id := convertToValidIdOpt sha freshKey record.id
        vector := record.embedding
        payload :=
          { original_id := record.id
            text := record.text
            metadata := record.metadata.getD []
            created_at := now } } st
      (jsOrStr record.id (convertToValidIdOpt sha freshKey record.id))
      (convert_of_returned_id sha freshKey fkG record.id hfresh)

/-- Witness for C3 at a concrete record with a custom id, stored into the
empty collection. -/
theorem c3_witness :
    ∃ ret st',
      storeVector shaZero freshEx nowEx recEx [] = .ok (ret, st') ∧
      (∀ i, recEx.id = some i → i ≠ "" → ret = i) ∧
      ((recEx.id = none ∨ recEx.id = some "") → ret = freshEx) ∧
      ∃ rec',
        getVector shaZero freshEx ret st' = some rec' ∧
        rec'.text = recEx.text ∧
        rec'.embedding = recEx.embedding ∧
        rec'.metadata = some (recEx.metadata.getD []) :=
  c3_store_get_roundtrip shaZero freshEx freshEx nowEx recEx []
    (by simp [recEx, e0vec, vectorSize]) (by decide)

/-- C4 (amended): the `/query/similar/:id` handler never returns a result
whose `id` field equals the `:id` argument the caller used — the final
filter removes exactly those entries.  (As the counterexample
`c4_counterexample` shows, this identifier-level exclusion is weaker than
the claim: a record stored under an original id but addressed by its
derived native storage key is reported under its original id and therefore
survives the filter, so the resolved record itself can appear among its own
"similar" results.) -/
theorem c4_similar_excludes_requested_id (sha : String → Fin 64 → Fin 16)
    (freshKey : String) (score : List ℚ → List ℚ → ℚ) (st : QdrantState)
    (existingId : String) (limit : Nat) (threshold : ℚ)
    (results : List QueryResult) (r : QueryResult)
    (hok : similarById sha freshKey score st existingId limit threshold = .ok results)
    (hr : r ∈ results) : r.id ≠ existingId := by
  unfold similarById at hok
  rcases h1 : getVector sha freshKey existingId st with _ | record
  · simp only [h1] at hok
    cases hok
  · simp only [h1] at hok
    rcases h2 : searchSimilar score st record.embedding (min limit 100) (max threshold 0)
      with e | res
    · simp only [h2] at hok
      cases hok
    · simp only [h2] at hok
      injection hok with h3
      subst h3
      have hmem := List.mem_filter.mp hr
      simpa using hmem.2

/-- Helper lemma: the dot product of two equal-length zero vectors is 0. -/
theorem dotScore_replicate_zero (n : Nat) :
    dotScore (List.replicate n (0 : ℚ)) (List.replicate n 0) = 0 := by
  induction n with
  | zero => rfl
  | succ n ih =>
    simp only [List.replicate_succ, dotScore, List.zip_cons_cons, List.map_cons,
      List.sum_cons] at ih ⊢
    rw [show ((0 : ℚ) * 0) = 0 by norm_num, zero_add]
    exact ih

/-- Helper lemma: the fixture unit vector has dot product 1 with itself. -/
theorem dotScore_e0vec : dotScore e0vec e0vec = 1 := by
  have h := dotScore_replicate_zero 383
  simp only [dotScore, e0vec, List.zip_cons_cons, List.map_cons, List.sum_cons] at h ⊢
  rw [show ((1 : ℚ) * 1) = 1 by norm_num, h]
  norm_num

/-- Helper lemma: the fixture vector has the collection's dimension. -/
theorem e0vec_length : e0vec.length = vectorSize := by
  simp [e0vec, vectorSize]

/-- Helper lemma: `getVector` on the one-point fixture store resolves the
native key `keyEx` to the record stored under original id `doc_001`. -/
theorem getVector_keyEx_eval :
    getVector shaZero freshEx keyEx [ptEx] =
      some { id := some "doc_001", text := "t", embedding := e0vec,
             metadata := some [] } := rfl

/-- Helper lemma: the similar-search results for the native key `keyEx` on
the one-point fixture store contain the stored record itself, listed under
its original id `doc_001`. -/
theorem similarById_keyEx_eval :
    similarById shaZero freshEx dotScore [ptEx] keyEx 10 0 =
      .ok [{ id := "doc_001", text := "t", score := 1, metadata := [] }] := by
  have hlen : ¬ e0vec.length ≠ vectorSize := by simp [e0vec_length]
  have hvec : ptEx.vector = e0vec := rfl
  have hmin : (min 10 100 : Nat) = 10 := rfl
  have hmax : (max (0 : ℚ) 0) = 0 := rfl
  have hge : decide ((0 : ℚ) ≤ dotScore e0vec ptEx.vector) = true := by
    rw [hvec, dotScore_e0vec]
    rfl
  have hq : qdrantSearch dotScore [ptEx] e0vec 10 0 = [ptEx] := by
    have h1 : (sortByScoreDesc dotScore e0vec [ptEx]).filter
        (fun p => decide ((0 : ℚ) ≤ dotScore e0vec p.vector)) = [ptEx] := by
      simp only [sortByScoreDesc, insertByScoreDesc, List.filter_cons, List.filter_nil,
        hge, if_true]
    rw [qdrantSearch, h1]
    rfl
  have hsearch : searchSimilar dotScore [ptEx] e0vec 10 0 =
      .ok [{ id := "doc_001", text := "t", score := 1, metadata := [] }] := by
    rw [searchSimilar, if_neg hlen, hq]
    simp only [List.map_cons, List.map_nil]
    rw [hvec, dotScore_e0vec]
    rfl
  unfold similarById
  rw [getVector_keyEx_eval]
  dsimp only
  rw [hmin, hmax, hsearch]
  rfl

/-- Witness for C4 on a concrete store: the one result returned for
`keyEx` has id `doc_001`, which differs from `keyEx`. -/
theorem c4_witness : ("doc_001" : String) ≠ keyEx :=
  c4_similar_excludes_requested_id shaZero freshEx dotScore [ptEx] keyEx 10 0
    [{ id := "doc_001", text := "t", score := 1, metadata := [] }]
    { id := "doc_001", text := "t", score := 1, metadata := [] }
    similarById_keyEx_eval (by simp)

/-- C4 counterexample: the claim's "regardless of whether the caller
addressed it by its original id or by its native storage key" clause fails.
`ptEx` was stored under original id `doc_001` with derived storage key
`keyEx`; `getVector` resolves `keyEx` to that very record, yet the
similar-search result list for `keyEx` contains that record (under id
`doc_001`) — the record most similar to itself is not excluded when
addressed by its native storage key. -/
theorem c4_counterexample :
    similarById shaZero freshEx dotScore [ptEx] keyEx 10 0 =
      .ok [{ id := "doc_001", text := "t", score := 1, metadata := [] }] ∧
    getVector shaZero freshEx keyEx [ptEx] =
      some { id := some "doc_001", text := "t", embedding := e0vec,
             metadata := some [] } :=
  ⟨similarById_keyEx_eval, getVector_keyEx_eval⟩

/-- C5 (code evaluation at the failing input): on an empty collection,
`deleteVector "doc_001"` returns `true` even though no record exists — the
Qdrant delete of the derived key is acknowledged as a no-op, the code's
"deletion failed" catch branch never runs, and its `return false` path is
dead.  A subsequent `getVector "doc_001"` returns `null`, confirming
nothing was there; the claim requires `delete` to return `false` here. -/
theorem c5_delete_nonexistent_returns_true :
    deleteVector shaZero freshEx "doc_001" [] = (true, []) ∧
    getVector shaZero freshEx "doc_001" [] = none :=
  ⟨rfl, rfl⟩

/-- C7 (amended): the single-record store writes its point with the
caller's original id in the payload, but the batch store writes points
whose payload has no `original_id` field at all. -/
theorem c7_payload_policy :
    (∀ (sha : String → Fin 64 → Fin 16) (freshKey now : String)
       (record : VectorRecord) (st : QdrantState) (ret : String) (st' : QdrantState),
       storeVector sha freshKey now record st = .ok (ret, st') →
       ∃ pt : QPoint, st' = upsertPoint pt st ∧ pt.payload.original_id = record.id) ∧
    (∀ (key now : String) (record : VectorRecord) (p : QPoint),
       batchPoint key now record = .ok p → p.payload.original_id = none) := by
  constructor
  · intro sha freshKey now record st ret st' hok
    unfold storeVector at hok
    split at hok
    · cases hok
    · injection hok with h1
      injection h1 with h2 h3
      exact ⟨_, h3.symm, rfl⟩
  · intro key now record p hok
    unfold batchPoint at hok
    split at hok
    · cases hok
    · injection hok with h1
      rw [← h1]

/-- Witness for C7: the concrete stored point of `storeVector` carries
`original_id = some "doc_001"`, and the concrete point built by the batch
path for the very same record carries none. -/
theorem c7_witness :
    (∃ pt : QPoint,
       upsertPoint
         { id := "00000000-0000-4000-8000-000000000000"
           vector := e0vec
           payload :=
             { original_id := some "doc_001", text := "t",
               metadata := [("k", "v")], created_at := nowEx } } [] =
         upsertPoint pt [] ∧
       pt.payload.original_id = recEx.id) ∧
    ({ id := "doc_001"
       vector := e0vec
       payload :=
         { original_id := none, text := "t", metadata := [("k", "v")],
           created_at := nowEx } } : QPoint).payload.original_id = none :=
  ⟨c7_payload_policy.1 shaZero freshEx nowEx recEx [] "doc_001" _ rfl,
   c7_payload_policy.2 freshEx nowEx recEx _ rfl⟩

/-- C7 counterexample: `storeVectors` (the batch path) stores `recEx`
(whose caller id is `doc_001`) as a point whose payload carries no
`original_id` — so not every store operation preserves the caller's id in
the payload, and a batch-stored record cannot be resolved back from its
key via payload. -/
theorem c7_counterexample :
    storeVectors (fun _ => freshEx) nowEx [recEx] [] =
      .ok (["doc_001"],
        [{ id := "doc_001"
           vector := e0vec
           payload :=
             { original_id := none, text := "t", metadata := [("k", "v")],
               created_at := nowEx } }]) := rfl

/-- Helper lemma: if any record in the list has a wrong-length embedding,
building the batch's points fails with a dimension-mismatch error (the
first offending record's), before any write. -/
theorem mkBatchPoints_error_of_bad (fresh : Nat → String) (now : String) :
    ∀ (i : Nat) (records : List VectorRecord),
      (∃ r ∈ records, r.embedding.length ≠ vectorSize) →
      ∃ rid act, mkBatchPoints fresh now i records =
        .error (.dimensionMismatch rid vectorSize act) ∧ act ≠ vectorSize := by
  intro i records
  induction records generalizing i with
  | nil =>
    rintro ⟨r, hr, _⟩
    cases hr
  | cons r rs ih =>
    rintro ⟨r', hr', hbad⟩
    by_cases h : r.embedding.length ≠ vectorSize
    · exact ⟨some (jsOrStr r.id (fresh i)), r.embedding.length,
        by simp [mkBatchPoints, batchPoint, h], h⟩
    · have hr'' : r' ∈ rs := by
        cases hr' with
        | head => exact absurd hbad h
        | tail _ h2 => exact h2
      obtain ⟨rid, act, heq, hact⟩ := ih (i + 1) ⟨r', hr'', hbad⟩
      refine ⟨rid, act, ?_, hact⟩
      simp only [mkBatchPoints]
      rw [heq]
      simp [batchPoint, h]

/-- C9: a batch containing any record whose embedding length is not 384
fails as a whole with a dimension-mismatch error, and no point of the
batch is written — the collection state after the call is unchanged. -/
theorem c9_storeBatch_atomic (fresh : Nat → String) (now : String)
    (records : List VectorRecord) (st : QdrantState)
    (hbad : ∃ r ∈ records, r.embedding.length ≠ vectorSize) :
    (∃ rid act, storeVectors fresh now records st =
       .error (.dimensionMismatch rid vectorSize act) ∧ act ≠ vectorSize) ∧
    stateAfterStoreVectors fresh now records st = st := by
  obtain ⟨rid, act, heq, hact⟩ := mkBatchPoints_error_of_bad fresh now 0 records hbad
  refine ⟨⟨rid, act, ?_, hact⟩, ?_⟩
  · simp [storeVectors, heq]
  · simp [stateAfterStoreVectors, storeVectors, heq]

/-- Witness for C9: a batch holding one valid record and one 2-dimensional
record is rejected and the (empty) collection stays empty. -/
theorem c9_witness :
    (∃ rid act, storeVectors (fun _ => freshEx) nowEx [recEx, recBad] [] =
       .error (.dimensionMismatch rid vectorSize act) ∧ act ≠ vectorSize) ∧
    stateAfterStoreVectors (fun _ => freshEx) nowEx [recEx, recBad] [] = [] :=
  c9_storeBatch_atomic (fun _ => freshEx) nowEx [recEx, recBad] []
    ⟨recBad, by simp, by decide⟩
